import Mathlib

/-!
Verification of the `ai_ide_compare` command-line harness.

This file gives a shallow embedding of the repository's code:

* `src/ai_ide_compare/task_eval.py` — the codebase analyzer
  (`CodebaseAnalyzer.should_ignore`, `collect_files`, `analyze_file`,
  `analyze`, the `CodebaseMetrics` dataclass and `eval_entrypoint`);
* `src/ai_ide_compare/task_init.py` — task initialization
  (`detect_task_type`, `generate_output_path`, `get_ide_version`,
  the template lookup in `init_entrypoint`);
* `src/ai_ide_compare/__init__.py` — `cleanup_task_results` and `main`;
* `src/ai_ide_compare/shared.py` — the `DIRS` path constants.

Filesystem state is made explicit: the analyzer is a fold over the list of
entries that `Path.rglob` would yield (each entry carrying its path
components and, for regular files, the outcome of opening it as UTF-8
text), and the cleanup command is a function on the list of entries of the
`results/tasks` directory.  Machine-level details that the claims do not
touch (character classes in glob patterns, exotic Unicode line
separators) are noted where the embedding simplifies them.
-/

deriving instance DecidableEq for Except

namespace AiIdeCompare

/-! ## Glob matching (`fnmatch` component matching, `PurePath.match`)

Python's `Path.match(pattern)` splits the (relative) pattern into
components and matches them against the *trailing* components of the
path, one `fnmatch` per component.  The default ignore patterns use only
literal characters and `*`; the embedding supports `*`, `?` and literal
characters (character classes are not modelled, no pattern in the
repository uses them). -/

/-- `fnmatch` on lists of characters: `*` matches any (possibly empty)
character sequence, `?` matches exactly one character, any other pattern
character matches itself.  Recursion is structural on a fuel parameter
instantiated by `fnmatch` with `pat.length + s.length + 1`; every
recursive call shrinks `pat.length + s.length`, so the zero-fuel branch
is unreachable from the wrapper (`fnmatchAux_fuel` below shows the
result does not depend on the fuel once it exceeds that sum). -/
def fnmatchAux : Nat → List Char → List Char → Bool
  | _ + 1, [], [] => true
  | _ + 1, [], _ :: _ => false
  | fuel + 1, '*' :: ps, [] => fnmatchAux fuel ps []
  | fuel + 1, '*' :: ps, c :: s =>
      fnmatchAux fuel ps (c :: s) || fnmatchAux fuel ('*' :: ps) s
  | _ + 1, '?' :: _, [] => false
  | fuel + 1, '?' :: ps, _ :: s => fnmatchAux fuel ps s
  | _ + 1, _ :: _, [] => false
  | fuel + 1, p :: ps, c :: s => p == c && fnmatchAux fuel ps s
  | 0, _, _ => false

/-- `fnmatch` on strings (one path component against one pattern component). -/
def fnmatch (pat s : String) : Bool :=
  fnmatchAux (pat.toList.length + s.toList.length + 1) pat.toList s.toList

/-- Unfolding equation for the literal-character branch of `fnmatchAux`. -/
theorem fnmatchAux_literal (f : Nat) (p : Char) (ps : List Char) (c : Char)
    (s : List Char) (h1 : p ≠ '*') (h2 : p ≠ '?') :
    fnmatchAux (f + 1) (p :: ps) (c :: s) = (p == c && fnmatchAux f ps s) := by
  rw [fnmatchAux.eq_def]
  split
  all_goals simp_all

/-- Unfolding equation for a non-`*` pattern head against the empty string. -/
theorem fnmatchAux_lit_nil (f : Nat) (p : Char) (ps : List Char) (h1 : p ≠ '*') :
    fnmatchAux (f + 1) (p :: ps) [] = false := by
  rw [fnmatchAux.eq_def]
  split
  all_goals simp_all

/-- The fuel is irrelevant as soon as it exceeds the combined length of
pattern and string: `fnmatchAux` is a total matcher. -/
theorem fnmatchAux_fuel (f : Nat) :
    ∀ (g : Nat) (ps s : List Char), ps.length + s.length < f →
      ps.length + s.length < g → fnmatchAux f ps s = fnmatchAux g ps s := by
  induction f with
  | zero => intro g ps s hf _; omega
  | succ f ih =>
    intro g ps s hf hg
    cases g with
    | zero => omega
    | succ g =>
      match ps, s with
      | [], [] => rfl
      | [], _ :: _ => rfl
      | p :: ps, [] =>
          rcases eq_or_ne p '*' with rfl | hstar
          · show fnmatchAux f ps [] = fnmatchAux g ps []
            exact ih g ps [] (by simp only [List.length_cons] at hf; omega)
              (by simp only [List.length_cons] at hg; omega)
          · rw [fnmatchAux_lit_nil f p ps hstar, fnmatchAux_lit_nil g p ps hstar]
      | p :: ps, c :: s =>
          rcases eq_or_ne p '*' with rfl | hstar
          · show (fnmatchAux f ps (c :: s) || fnmatchAux f ('*' :: ps) s) =
              (fnmatchAux g ps (c :: s) || fnmatchAux g ('*' :: ps) s)
            rw [ih g ps (c :: s) (by simp only [List.length_cons] at hf ⊢; omega)
                (by simp only [List.length_cons] at hg ⊢; omega),
              ih g ('*' :: ps) s (by simp only [List.length_cons] at hf ⊢; omega)
                (by simp only [List.length_cons] at hg ⊢; omega)]
          · rcases eq_or_ne p '?' with rfl | hq
            · show fnmatchAux f ps s = fnmatchAux g ps s
              exact ih g ps s (by simp only [List.length_cons] at hf; omega)
                (by simp only [List.length_cons] at hg; omega)
            · rw [fnmatchAux_literal f p ps c s hstar hq,
                fnmatchAux_literal g p ps c s hstar hq,
                ih g ps s (by simp only [List.length_cons] at hf; omega)
                  (by simp only [List.length_cons] at hg; omega)]

/-- `PurePath.match` for a relative pattern: the pattern's components are
matched from the right against the final components of the path; a
pattern longer than the path never matches, and an empty pattern is
rejected. -/
def pathMatch (pattern : List String) (path : List String) : Bool :=
  !pattern.isEmpty && decide (pattern.length ≤ path.length) &&
    (List.zip pattern.reverse path.reverse).all (fun pc => fnmatch pc.1 pc.2)

/-- `_DEFAULT_IGNORE_PATTERNS` from `task_eval.py`, each pattern already
split into path components (all of them are single-component). -/
def DEFAULT_IGNORE_PATTERNS : List (List String) :=
  [["__pycache__"], [".venv"], ["node_modules"], [".git"], [".mise.*.toml"],
   ["*.pyc"], [".DS_Store"], ["*.swp"], ["*.env"]]

/-- `CodebaseAnalyzer.should_ignore`: a path is ignored when it matches
any pattern of the analyzer's pattern set (`_DEFAULT_IGNORE_PATTERNS`
unioned with the caller-supplied extras). -/
def should_ignore (patterns : List (List String)) (path : List String) : Bool :=
  patterns.any (fun p => pathMatch p path)

/-! ## File names, suffixes and file types -/

/-- The final component of a path (`Path.name`); also the value of
`file_path.relative_to(file_path.parent)` used by `analyze_file`. -/
def lastComp (path : List String) : String :=
  (path.getLast?).getD ""

/-- `Path.suffix`: the part of the final component from its last dot on,
provided that dot is neither the first nor the last character of the
name; otherwise the empty string. -/
def suffixOf (name : String) : String :=
  let cs := name.toList
  let ridx := cs.reverse.indexOf '.'
  if ridx == cs.length then ""
  else
    let i := cs.length - 1 - ridx
    if 0 < i && i < cs.length - 1 then String.mk (cs.drop i) else ""

/-- Python `str.lower` (ASCII case folding, as in `Char.toLower`). -/
def pyLower (s : String) : String :=
  String.mk (s.toList.map Char.toLower)

/-- The `type` field computed by `analyze_file`:
`file_path.suffix.lower() or "no_extension"`. -/
def fileTypeOf (name : String) : String :=
  let s := pyLower (suffixOf name)
  if s == "" then "no_extension" else s

/-! ## Filesystem model for the analyzer -/

/-- Outcome of opening a regular file as UTF-8 text and counting its
lines: success with a line count, a `UnicodeDecodeError`, or any other
read error. -/
inductive ReadRes where
  | ok (lines : Nat)
  | undecodable
  | readErr
  deriving DecidableEq, Repr

/-- A filesystem entry as yielded by `Path.rglob("*")`: its full path
components (root directory included) and whether it is a directory or a
regular file (with the file's read outcome). -/
inductive Node where
  | dir
  | file (r : ReadRes)
  deriving DecidableEq, Repr

structure FSEntry where
  path : List String
  node : Node
  deriving DecidableEq, Repr

/-- `path.is_file()`. -/
def FSEntry.isFile (e : FSEntry) : Bool :=
  match e.node with
  | .dir => false
  | .file _ => true

/-- A per-file record of `file_details`:
`{"path": ..., "lines": ..., "type": ...}`. -/
structure Detail where
  path : String
  lines : Nat
  type : String
  deriving DecidableEq, Repr

/-- Console messages emitted during analysis (`console.print` calls in
`analyze_file`). -/
inductive Msg where
  | warnSkipBinary (path : List String)
  | errorReading (path : List String)
  deriving DecidableEq, Repr

/-- The `CodebaseMetrics` dataclass.  `files_by_type` is the Python dict
in insertion order; `ignored_files` is the set in insertion order. -/
structure CodebaseMetrics where
  total_files : Nat := 0
  total_lines : Nat := 0
  files_by_type : List (String × Nat) := []
  file_details : List Detail := []
  ignored_files : List (List String) := []
  deriving DecidableEq, Repr

/-- `metrics.files_by_type[t] = metrics.files_by_type.get(t, 0) + 1`:
increment the first binding of `t`, or append a fresh binding `(t, 1)`. -/
def bump : List (String × Nat) → String → List (String × Nat)
  | [], t => [(t, 1)]
  | (k, c) :: rest, t => if k == t then (k, c + 1) :: rest else (k, c) :: bump rest t

/-- `CodebaseAnalyzer.collect_files`: the non-ignored regular files among
the entries yielded by `rglob`, in traversal order. -/
def collect_files (patterns : List (List String)) (fs : List FSEntry) : List FSEntry :=
  fs.filter (fun e => e.isFile && !(should_ignore patterns e.path))

/-- `CodebaseAnalyzer.analyze_file`: count the lines of one file,
returning its detail record, or `none` plus a warning (binary file) or an
error message (any other read failure).  The `path` field is
`str(file_path.relative_to(file_path.parent))`, i.e. the file's final
path component. -/
def analyze_file (e : FSEntry) : Option Detail × List Msg :=
  match e.node with
  | .file (.ok n) =>
      (some ⟨lastComp e.path, n, fileTypeOf (lastComp e.path)⟩, [])
  | .file .undecodable => (none, [.warnSkipBinary e.path])
  | .file .readErr => (none, [.errorReading e.path])
  | .dir => (none, [])

/-- One iteration of the loop in `CodebaseAnalyzer.analyze`. -/
def analyzeStep (acc : CodebaseMetrics × List Msg) (e : FSEntry) :
    CodebaseMetrics × List Msg :=
  match analyze_file e with
  | (some fm, ms) =>
      ({ acc.1 with
          total_files := acc.1.total_files + 1
          total_lines := acc.1.total_lines + fm.lines
          files_by_type := bump acc.1.files_by_type fm.type
          file_details := acc.1.file_details ++ [fm] }, acc.2 ++ ms)
  | (none, ms) =>
      ({ acc.1 with ignored_files := acc.1.ignored_files ++ [e.path] }, acc.2 ++ ms)

/-- `CodebaseAnalyzer.analyze`: fold the loop body over the collected
files, starting from an empty `CodebaseMetrics`; also returns the console
messages emitted along the way. -/
def analyze (patterns : List (List String)) (fs : List FSEntry) :
    CodebaseMetrics × List Msg :=
  (collect_files patterns fs).foldl analyzeStep ({}, [])

/-! ## Declarative characterizations of the fold -/

/-- The detail records produced by a list of collected files. -/
def detailsOfList (l : List FSEntry) : List Detail :=
  l.filterMap (fun e => (analyze_file e).1)

/-- The paths recorded as ignored by a list of collected files. -/
def ignoredOfList (l : List FSEntry) : List (List String) :=
  l.filterMap (fun e => if (analyze_file e).1.isSome then none else some e.path)

/-- The console messages emitted for a list of collected files. -/
def msgsOfList (l : List FSEntry) : List Msg :=
  l.foldr (fun e acc => (analyze_file e).2 ++ acc) []

/-- The loop of `analyze` computes, from any starting accumulator, the
declarative filter/map characterizations of each metrics field. -/
theorem foldl_analyzeStep (l : List FSEntry) :
    ∀ (m : CodebaseMetrics) (log : List Msg),
    l.foldl analyzeStep (m, log) =
      ({ total_files := m.total_files + (detailsOfList l).length
         total_lines := m.total_lines + ((detailsOfList l).map Detail.lines).sum
         files_by_type := (detailsOfList l).foldl (fun fb d => bump fb d.type) m.files_by_type
         file_details := m.file_details ++ detailsOfList l
         ignored_files := m.ignored_files ++ ignoredOfList l },
       log ++ msgsOfList l) := by
  induction l with
  | nil => intro m log; simp [detailsOfList, ignoredOfList, msgsOfList]
  | cons e t ih =>
    intro m log
    rcases h : analyze_file e with ⟨od, ms⟩
    cases od with
    | none =>
        simp only [List.foldl_cons, analyzeStep, h, ih, detailsOfList, ignoredOfList,
          msgsOfList, List.filterMap_cons, List.foldr_cons, Option.isSome_none, if_false,
          Bool.false_eq_true, List.append_assoc, List.singleton_append]
    | some d =>
        simp only [List.foldl_cons, analyzeStep, h, ih, detailsOfList, ignoredOfList,
          msgsOfList, List.filterMap_cons, List.foldr_cons, Option.isSome_some,
          eq_self_iff_true, if_true, List.append_assoc, List.map_cons, List.sum_cons,
          List.length_cons, List.singleton_append, Prod.mk.injEq,
          CodebaseMetrics.mk.injEq]
        exact ⟨⟨by omega, by omega, by trivial, by trivial, by trivial⟩, by trivial⟩

/-- Lookup count in a `files_by_type` association list (0 when absent). -/
def cnt (fb : List (String × Nat)) (k : String) : Nat :=
  (List.lookup k fb).getD 0

theorem lookup_bump_self (fb : List (String × Nat)) (k : String) :
    List.lookup k (bump fb k) = some (cnt fb k + 1) := by
  induction fb with
  | nil => simp [bump, cnt, List.lookup]
  | cons p rest ih =>
    rcases p with ⟨k', c⟩
    by_cases h : k' = k
    · subst h; simp [bump, cnt, List.lookup]
    · have h' : (k' == k) = false := by simp [h]
      have h'' : (k == k') = false := by simp [Ne.symm h]
      simp [bump, cnt, List.lookup, h', h''] at ih ⊢
      exact ih

theorem lookup_bump_ne (fb : List (String × Nat)) (k k' : String) (h : k' ≠ k) :
    List.lookup k' (bump fb k) = List.lookup k' fb := by
  induction fb with
  | nil => simp [bump, List.lookup, show (k' == k) = false by simp [h]]
  | cons p rest ih =>
    rcases p with ⟨a, c⟩
    by_cases ha : a = k
    · subst ha
      simp [bump, List.lookup, show (k' == a) = false by simp [h]]
    · simp [bump, List.lookup, show (a == k) = false by simp [ha], ih]

theorem cnt_bump_self (fb : List (String × Nat)) (k : String) :
    cnt (bump fb k) k = cnt fb k + 1 := by
  simp [cnt, lookup_bump_self]

theorem cnt_bump_ne (fb : List (String × Nat)) (k k' : String) (h : k' ≠ k) :
    cnt (bump fb k) k' = cnt fb k' := by
  simp [cnt, lookup_bump_ne fb k k' h]

/-- Folding `bump` over the types of a detail list counts, for every key,
the number of details with that type. -/
theorem cnt_foldl_bump (ds : List Detail) :
    ∀ (fb : List (String × Nat)) (k : String),
    cnt (ds.foldl (fun fb d => bump fb d.type) fb) k =
      cnt fb k + (ds.filter (fun d => d.type == k)).length := by
  induction ds with
  | nil => intro fb k; simp
  | cons d t ih =>
    intro fb k
    by_cases h : d.type = k
    · subst h
      simp [List.foldl_cons, ih, cnt_bump_self, List.filter_cons]
      omega
    · simp [List.foldl_cons, ih, cnt_bump_ne fb d.type k (Ne.symm h), List.filter_cons,
        show (d.type == k) = false by simp [h]]

/-! ## Sample filesystems used to instantiate the theorems -/

/-- A small tree under root `r`: two same-named Python files in different
subdirectories, one binary file, one `*.pyc` artifact, and a populated
`__pycache__` directory. -/
def fsSample : List FSEntry :=
  [⟨["r", "sub"], .dir⟩,
   ⟨["r", "sub", "x.py"], .file (.ok 3)⟩,
   ⟨["r", "b"], .dir⟩,
   ⟨["r", "b", "x.py"], .file (.ok 5)⟩,
   ⟨["r", "bin.dat"], .file .undecodable⟩,
   ⟨["r", "junk.pyc"], .file (.ok 9)⟩,
   ⟨["r", "__pycache__"], .dir⟩,
   ⟨["r", "__pycache__", "data.txt"], .file (.ok 2)⟩]

/-- Two files named `x.py` in different directories under root `r`. -/
def fsDup : List FSEntry :=
  [⟨["r", "sub"], .dir⟩,
   ⟨["r", "sub", "x.py"], .file (.ok 3)⟩,
   ⟨["r", "b"], .dir⟩,
   ⟨["r", "b", "x.py"], .file (.ok 5)⟩]

/-- A text file living inside a `__pycache__` directory. -/
def fsPycache : List FSEntry :=
  [⟨["root", "__pycache__"], .dir⟩,
   ⟨["root", "__pycache__", "data.txt"], .file (.ok 2)⟩]

/-- A path rendered relative to the analyzed root directory (what the
spec's `path` field claims the analyzer stores). -/
def relToRoot (root path : List String) : String :=
  String.intercalate "/" (path.drop root.length)

/-! ## Claim theorems for the analyzer -/

/-- C1: for every metrics value returned by `analyze`, `total_files`
equals the length of `file_details`, `total_lines` equals the sum of the
per-file line counts, and every key of `files_by_type` stores the number
of detail records with that type. -/
theorem C1_metrics_invariants (patterns : List (List String)) (fs : List FSEntry) :
    (analyze patterns fs).1.total_files = (analyze patterns fs).1.file_details.length ∧
    (analyze patterns fs).1.total_lines =
      ((analyze patterns fs).1.file_details.map Detail.lines).sum ∧
    ∀ k c, List.lookup k (analyze patterns fs).1.files_by_type = some c →
      c = ((analyze patterns fs).1.file_details.filter (fun d => d.type == k)).length := by
  unfold analyze
  rw [foldl_analyzeStep]
  refine ⟨by simp, by simp, ?_⟩
  intro k c hk
  have h := cnt_foldl_bump (detailsOfList (collect_files patterns fs))
    ({} : CodebaseMetrics).files_by_type k
  simp only [cnt, hk, Option.getD_some] at h
  simpa using h

/-- Witness for C1 on `fsSample`: `.py` is a key of `files_by_type` with
count 2, and exactly 2 detail records have type `.py`. -/
theorem C1_metrics_invariants_witness :
    List.lookup ".py" (analyze DEFAULT_IGNORE_PATTERNS fsSample).1.files_by_type =
      some 2 ∧
    2 = ((analyze DEFAULT_IGNORE_PATTERNS fsSample).1.file_details.filter
      (fun d => d.type == ".py")).length :=
  ⟨by decide,
   (C1_metrics_invariants DEFAULT_IGNORE_PATTERNS fsSample).2.2 ".py" 2 (by decide)⟩

/-- C2 counterexample: on `fsDup` (files `r/sub/x.py` and `r/b/x.py`) the
analyzer stores `"x.py"` twice as the `path` field — the file's name
relative to its *parent*, not to the root `r` (which would be
`"sub/x.py"`), so distinct files do not get distinct path keys. -/
theorem C2_path_counterexample :
    ((analyze DEFAULT_IGNORE_PATTERNS fsDup).1.file_details.map Detail.path) =
      ["x.py", "x.py"] ∧
    relToRoot ["r"] ["r", "sub", "x.py"] = "sub/x.py" ∧
    "x.py" ≠ "sub/x.py" ∧
    ¬ ((analyze DEFAULT_IGNORE_PATTERNS fsDup).1.file_details.map Detail.path).Nodup :=
  by decide

/-- C2 as amended: every collected file appears exactly once, in
traversal order, in `file_details` (the fold equals the one-record-per-
file `filterMap`), and a successfully read non-ignored file's record has
as `path` its final path component (`relative_to(parent)`). -/
theorem C2_file_details_amended (patterns : List (List String)) (fs : List FSEntry) :
    (analyze patterns fs).1.file_details = detailsOfList (collect_files patterns fs) ∧
    ∀ e ∈ fs, ∀ n, e.node = Node.file (ReadRes.ok n) →
      should_ignore patterns e.path = false →
      (⟨lastComp e.path, n, fileTypeOf (lastComp e.path)⟩ : Detail) ∈
        (analyze patterns fs).1.file_details := by
  have hchar : (analyze patterns fs).1.file_details =
      detailsOfList (collect_files patterns fs) := by
    unfold analyze
    rw [foldl_analyzeStep]
    simp
  refine ⟨hchar, ?_⟩
  intro e he n hnode hig
  rw [hchar]
  refine List.mem_filterMap.mpr ⟨e, ?_, ?_⟩
  · exact List.mem_filter.mpr ⟨he, by simp [FSEntry.isFile, hnode, hig]⟩
  · simp [analyze_file, hnode]

/-- Witness for the amended C2 on `fsDup`: the record for `r/sub/x.py`
(path field `"x.py"`, 3 lines, type `".py"`) is in `file_details`. -/
theorem C2_file_details_amended_witness :
    (⟨["r", "sub", "x.py"], Node.file (ReadRes.ok 3)⟩ : FSEntry) ∈ fsDup ∧
    (⟨"x.py", 3, ".py"⟩ : Detail) ∈
      (analyze DEFAULT_IGNORE_PATTERNS fsDup).1.file_details :=
  ⟨by decide,
   (C2_file_details_amended DEFAULT_IGNORE_PATTERNS fsDup).2
     ⟨["r", "sub", "x.py"], Node.file (ReadRes.ok 3)⟩ (by decide) 3 rfl (by decide)⟩

/-- C3: `should_ignore` matches only the trailing components of a path
(`Path.match` semantics), so while the `__pycache__` directory itself
matches the default pattern set, the file `root/__pycache__/data.txt`
inside it does not; the analyzer opens and counts it. -/
theorem C3_ignored_dir_contents_counted :
    should_ignore DEFAULT_IGNORE_PATTERNS ["root", "__pycache__"] = true ∧
    should_ignore DEFAULT_IGNORE_PATTERNS ["root", "__pycache__", "data.txt"] = false ∧
    (analyze DEFAULT_IGNORE_PATTERNS fsPycache).1 =
      { total_files := 1, total_lines := 2, files_by_type := [(".txt", 1)],
        file_details := [⟨"data.txt", 2, ".txt"⟩], ignored_files := [] } ∧
    (analyze DEFAULT_IGNORE_PATTERNS [⟨["root", "junk.pyc"], .file (.ok 9)⟩]).1 =
      { total_files := 0, total_lines := 0, files_by_type := [],
        file_details := [], ignored_files := [] } :=
  by decide

/-- C4: a non-ignored regular file whose read fails (undecodable or any
other error) is recorded in `ignored_files`, produces a warning
respectively an error message, contributes nothing to `file_details` or
the totals, and the rest of the traversal is unaffected: the metrics on
`pre ++ [e] ++ post` agree with those on `pre ++ post` everywhere except
`ignored_files`. -/
theorem C4_unreadable_file_recovered (patterns : List (List String))
    (pre post : List FSEntry) (e : FSEntry)
    (hfail : e.node = Node.file ReadRes.undecodable ∨ e.node = Node.file ReadRes.readErr)
    (hig : should_ignore patterns e.path = false) :
    e.path ∈ (analyze patterns (pre ++ e :: post)).1.ignored_files ∧
    (analyze patterns (pre ++ e :: post)).1.total_files =
      (analyze patterns (pre ++ post)).1.total_files ∧
    (analyze patterns (pre ++ e :: post)).1.total_lines =
      (analyze patterns (pre ++ post)).1.total_lines ∧
    (analyze patterns (pre ++ e :: post)).1.file_details =
      (analyze patterns (pre ++ post)).1.file_details ∧
    (e.node = Node.file ReadRes.undecodable →
      Msg.warnSkipBinary e.path ∈ (analyze patterns (pre ++ e :: post)).2) ∧
    (e.node = Node.file ReadRes.readErr →
      Msg.errorReading e.path ∈ (analyze patterns (pre ++ e :: post)).2) := by
  have hisfile : e.isFile = true := by
    rcases hfail with h | h <;> simp [FSEntry.isFile, h]
  have hnone : (analyze_file e).1 = none := by
    rcases hfail with h | h <;> simp [analyze_file, h]
  have hcoll : collect_files patterns (pre ++ e :: post) =
      collect_files patterns pre ++ e :: collect_files patterns post := by
    simp [collect_files, List.filter_append, List.filter_cons, hisfile, hig]
  have hcoll' : collect_files patterns (pre ++ post) =
      collect_files patterns pre ++ collect_files patterns post := by
    simp [collect_files, List.filter_append]
  unfold analyze
  rw [hcoll, hcoll', foldl_analyzeStep, foldl_analyzeStep]
  have hd : ∀ l l' : List FSEntry, detailsOfList (l ++ e :: l') =
      detailsOfList l ++ detailsOfList l' := by
    intro l l'
    simp [detailsOfList, List.filterMap_append, List.filterMap_cons, hnone]
  have hi : ∀ l l' : List FSEntry, ignoredOfList (l ++ e :: l') =
      ignoredOfList l ++ e.path :: ignoredOfList l' := by
    intro l l'
    simp [ignoredOfList, List.filterMap_append, List.filterMap_cons, hnone]
  have hm : ∀ l l' : List FSEntry, msgsOfList (l ++ e :: l') =
      msgsOfList l ++ (analyze_file e).2 ++ msgsOfList l' := by
    intro l l'
    simp only [msgsOfList, List.foldr_append, List.foldr_cons, List.append_assoc]
    induction l with
    | nil => simp
    | cons a t ih => simp [ih]
  have hd2 : ∀ l l' : List FSEntry, detailsOfList (l ++ l') =
      detailsOfList l ++ detailsOfList l' := by
    intro l l'
    simp [detailsOfList, List.filterMap_append]
  refine ⟨?_, ?_, ?_, ?_, ?_, ?_⟩
  · simp [hi, hd]
  · simp [hd, hd2]
  · simp [hd, hd2]
  · simp [hd, hd2]
  · intro h
    simp [hm, analyze_file, h]
  · intro h
    simp [hm, analyze_file, h]

/-- Witness for C4: an undecodable file between two readable files is
recorded in `ignored_files`, warned about, and leaves the other metrics
as if it were absent. -/
theorem C4_unreadable_file_recovered_witness :
    (⟨["r", "bin.dat"], Node.file ReadRes.undecodable⟩ : FSEntry).node =
      Node.file ReadRes.undecodable ∧
    should_ignore DEFAULT_IGNORE_PATTERNS ["r", "bin.dat"] = false ∧
    (["r", "bin.dat"] ∈
      (analyze DEFAULT_IGNORE_PATTERNS
        ([⟨["r", "a.py"], .file (.ok 1)⟩] ++
          ⟨["r", "bin.dat"], .file .undecodable⟩ :: [⟨["r", "c.py"], .file (.ok 4)⟩])).1.ignored_files ∧
      (analyze DEFAULT_IGNORE_PATTERNS
        ([⟨["r", "a.py"], .file (.ok 1)⟩] ++
          ⟨["r", "bin.dat"], .file .undecodable⟩ :: [⟨["r", "c.py"], .file (.ok 4)⟩])).1.total_files =
        (analyze DEFAULT_IGNORE_PATTERNS
          ([⟨["r", "a.py"], .file (.ok 1)⟩] ++ [⟨["r", "c.py"], .file (.ok 4)⟩])).1.total_files ∧
      (analyze DEFAULT_IGNORE_PATTERNS
        ([⟨["r", "a.py"], .file (.ok 1)⟩] ++
          ⟨["r", "bin.dat"], .file .undecodable⟩ :: [⟨["r", "c.py"], .file (.ok 4)⟩])).1.total_lines =
        (analyze DEFAULT_IGNORE_PATTERNS
          ([⟨["r", "a.py"], .file (.ok 1)⟩] ++ [⟨["r", "c.py"], .file (.ok 4)⟩])).1.total_lines ∧
      (analyze DEFAULT_IGNORE_PATTERNS
        ([⟨["r", "a.py"], .file (.ok 1)⟩] ++
          ⟨["r", "bin.dat"], .file .undecodable⟩ :: [⟨["r", "c.py"], .file (.ok 4)⟩])).1.file_details =
        (analyze DEFAULT_IGNORE_PATTERNS
          ([⟨["r", "a.py"], .file (.ok 1)⟩] ++ [⟨["r", "c.py"], .file (.ok 4)⟩])).1.file_details ∧
      ((⟨["r", "bin.dat"], Node.file ReadRes.undecodable⟩ : FSEntry).node =
          Node.file ReadRes.undecodable →
        Msg.warnSkipBinary ["r", "bin.dat"] ∈
          (analyze DEFAULT_IGNORE_PATTERNS
            ([⟨["r", "a.py"], .file (.ok 1)⟩] ++
              ⟨["r", "bin.dat"], .file .undecodable⟩ :: [⟨["r", "c.py"], .file (.ok 4)⟩])).2) ∧
      ((⟨["r", "bin.dat"], Node.file ReadRes.undecodable⟩ : FSEntry).node =
          Node.file ReadRes.readErr →
        Msg.errorReading ["r", "bin.dat"] ∈
          (analyze DEFAULT_IGNORE_PATTERNS
            ([⟨["r", "a.py"], .file (.ok 1)⟩] ++
              ⟨["r", "bin.dat"], .file .undecodable⟩ :: [⟨["r", "c.py"], .file (.ok 4)⟩])).2)) :=
  ⟨rfl, by decide,
   C4_unreadable_file_recovered DEFAULT_IGNORE_PATTERNS
     [⟨["r", "a.py"], .file (.ok 1)⟩] [⟨["r", "c.py"], .file (.ok 4)⟩]
     ⟨["r", "bin.dat"], .file .undecodable⟩ (Or.inl rfl) (by decide)⟩

/-! ## `task_init.py`: template lookup, output path generation

The template filesystem is abstracted by the lists of task names present
under `tasks/greenfield/` and `tasks/brownfield/`. -/

/-- `detect_task_type`: check `tasks/greenfield/<name>`, then
`tasks/brownfield/<name>`; if neither exists, print an error and
`sys.exit(1)` (modelled as `Except.error` carrying the exit status). -/
def detect_task_type (gf bf : List String) (task_name : String) : Except Nat String :=
  if task_name ∈ gf then .ok "greenfield"
  else if task_name ∈ bf then .ok "brownfield"
  else .error 1

/-- The merged template map
`{**_get_templates("greenfield"), **_get_templates("brownfield")}` built
by `init_entrypoint`, looked up at `args.task_name`.  The `**`-merge lets
a brownfield entry overwrite a greenfield entry of the same name; a
missing key raises `KeyError`, which terminates the interpreter with exit
status 1. -/
def init_template_lookup (gf bf : List String) (task_name : String) :
    Except Nat (String × String) :=
  if task_name ∈ bf then .ok ("tasks/brownfield/" ++ task_name, "brownfield")
  else if task_name ∈ gf then .ok ("tasks/greenfield/" ++ task_name, "greenfield")
  else .error 1

/-- The output directories created by an `init_entrypoint` run: the
template lookup precedes `copy_task_template`'s `mkdir`, so a failed
lookup creates nothing. -/
def init_created_dirs (gf bf : List String) (task_name out_dir : String) : List String :=
  match init_template_lookup gf bf task_name with
  | .ok _ => [out_dir]
  | .error _ => []

/-- C5 counterexample: for a task name present under both template
roots, `init_entrypoint`'s merged-dict lookup resolves the task to the
brownfield root, whereas the greenfield-first check described by the
claim (implemented by `detect_task_type`, which `init_entrypoint` never
calls) resolves it to greenfield. -/
theorem C5_greenfield_first_counterexample :
    init_template_lookup ["x"] ["x"] "x" =
      Except.ok ("tasks/brownfield/x", "brownfield") ∧
    detect_task_type ["x"] ["x"] "x" = Except.ok "greenfield" ∧
    ("brownfield" : String) ≠ "greenfield" := by decide

/-- C5 as amended: an unknown task name terminates init with exit status
1 (via the uncaught `KeyError`) with no output directory created, and
`detect_task_type` also exits with status 1 on it; a known name resolves
to brownfield whenever present there (the merge gives brownfield
precedence) and to greenfield otherwise, while the standalone
`detect_task_type` checks greenfield first and brownfield second. -/
theorem C5_unknown_task_amended (gf bf : List String) (task_name out_dir : String) :
    (task_name ∉ gf → task_name ∉ bf →
      init_template_lookup gf bf task_name = Except.error 1 ∧
      init_created_dirs gf bf task_name out_dir = [] ∧
      detect_task_type gf bf task_name = Except.error 1) ∧
    (task_name ∈ bf →
      init_template_lookup gf bf task_name =
        Except.ok ("tasks/brownfield/" ++ task_name, "brownfield")) ∧
    (task_name ∉ bf → task_name ∈ gf →
      init_template_lookup gf bf task_name =
        Except.ok ("tasks/greenfield/" ++ task_name, "greenfield")) ∧
    (task_name ∈ gf → detect_task_type gf bf task_name = Except.ok "greenfield") ∧
    (task_name ∉ gf → task_name ∈ bf →
      detect_task_type gf bf task_name = Except.ok "brownfield") := by
  refine ⟨?_, ?_, ?_, ?_, ?_⟩
  · intro h1 h2
    refine ⟨?_, ?_, ?_⟩ <;>
      simp [init_template_lookup, init_created_dirs, detect_task_type, h1, h2]
  · intro h
    simp [init_template_lookup, h]
  · intro h1 h2
    simp [init_template_lookup, h1, h2]
  · intro h
    simp [detect_task_type, h]
  · intro h1 h2
    simp [detect_task_type, h1, h2]

/-- Witness for the amended C5 at a concrete unknown task name. -/
theorem C5_unknown_task_amended_witness :
    ("nope" ∉ (["todo-app"] : List String)) ∧
    ("nope" ∉ (["legacy"] : List String)) ∧
    (init_template_lookup ["todo-app"] ["legacy"] "nope" = Except.error 1 ∧
     init_created_dirs ["todo-app"] ["legacy"] "nope" "out" = [] ∧
     detect_task_type ["todo-app"] ["legacy"] "nope" = Except.error 1) :=
  ⟨by decide, by decide,
   (C5_unknown_task_amended ["todo-app"] ["legacy"] "nope" "out").1
     (by decide) (by decide)⟩

/-- Python `str.replace(" ", "-")`. -/
def pyReplaceSpaceHyphen (s : String) : String :=
  String.mk (s.toList.map (fun c => if c = ' ' then '-' else c))

/-- `generate_output_path`: `DIRS.TASK_RESULTS / dir_name` where
`dir_name = f"{task_name}-{ide}-{llm}-{timestamp}".replace(" ", "-").lower()`
and `DIRS.TASK_RESULTS = Path("results") / "tasks"`; the timestamp
argument stands for `datetime.now().strftime("%Y%m%d_%H%M%S")`. -/
def generate_output_path (task_name ide llm timestamp : String) : String :=
  "results/tasks/" ++
    pyLower (pyReplaceSpaceHyphen
      (task_name ++ "-" ++ ide ++ "-" ++ llm ++ "-" ++ timestamp))

/-- The output path as the claim words it: the joined name lower-cased,
with every space replaced by a hyphen, under the fixed results root. -/
def spec_output_path (task_name ide llm timestamp : String) : String :=
  "results/tasks/" ++
    pyReplaceSpaceHyphen (pyLower
      (task_name ++ "-" ++ ide ++ "-" ++ llm ++ "-" ++ timestamp))

theorem char_toNat_ofNat (n : Nat) (h : n.isValidChar) : (Char.ofNat n).toNat = n := by
  rw [Char.ofNat, dif_pos h]
  rfl

theorem toLower_ne_space (c : Char) (h : c ≠ ' ') : Char.toLower c ≠ ' ' := by
  unfold Char.toLower
  by_cases hc : c.toNat ≥ 65 ∧ c.toNat ≤ 90
  · rw [if_pos hc]
    intro hEq
    have h2 := congrArg Char.toNat hEq
    rw [char_toNat_ofNat (c.toNat + 32) (Or.inl (by omega))] at h2
    have h3 : Char.toNat ' ' = 32 := rfl
    omega
  · rw [if_neg hc]
    exact h

theorem toLower_replace_comm (c : Char) :
    Char.toLower (if c = ' ' then '-' else c) =
      (if Char.toLower c = ' ' then '-' else Char.toLower c) := by
  by_cases h : c = ' '
  · subst h; decide
  · rw [if_neg h, if_neg (toLower_ne_space c h)]

/-- C6: the generated output path is the fixed results root
`results/tasks` joined with `<task_name>-<ide>-<llm>-<timestamp>`
lower-cased and with every space replaced by a hyphen (the code replaces
before lower-casing; the two orders agree). -/
theorem C6_output_path (task_name ide llm timestamp : String) :
    generate_output_path task_name ide llm timestamp =
      spec_output_path task_name ide llm timestamp := by
  unfold generate_output_path spec_output_path
  congr 1
  unfold pyLower pyReplaceSpaceHyphen
  simp only [show ∀ l : List Char, (String.mk l).toList = l from fun l => rfl,
    List.map_map]
  congr 1
  apply List.map_congr_left
  intro c _
  simp only [Function.comp_apply]
  exact toLower_replace_comm c

/-- The spec's concrete naming example, via C6. -/
theorem C6_output_path_example :
    generate_output_path "todo-app" "cursor" "gpt-4" "20240101_120000" =
      "results/tasks/todo-app-cursor-gpt-4-20240101_120000" := by
  rw [C6_output_path]
  decide

/-! ## `__init__.py`: the cleanup command

The state of `results/tasks` is `none` when the directory does not exist
and otherwise the list of its immediate entries, in iteration order; the
system itself only ever populates it with per-run subdirectories, and
`shutil.rmtree` removes such a subdirectory recursively. -/

/-- `cleanup_task_results(not_dry_run)`: if the results directory exists,
iterate over its entries, log `Removing <entry>` for each, and remove it
only when `not_dry_run` is set.  Returns the new directory state and the
log lines.  In the source the parameter *defaults to `True`*. -/
def cleanup_task_results (not_dry_run : Bool) (st : Option (List String)) :
    Option (List String) × List String :=
  match st with
  | none => (none, ["is not-dry-run: " ++ toString not_dry_run])
  | some entries =>
      (some (entries.foldl
          (fun kept d => if not_dry_run then kept else kept ++ [d]) []),
       ["is not-dry-run: " ++ toString not_dry_run] ++
         entries.map (fun d => "Removing " ++ d))

/-- The default value of `cleanup_task_results`'s `not_dry_run`
parameter in the source: `True`. -/
def cleanup_default_not_dry_run : Bool := true

/-- The argument `main` passes:
`not_dry_run = "--not-dry-run" in set(sys.argv)`. -/
def main_not_dry_run (argv : List String) : Bool :=
  argv.contains "--not-dry-run"

/-- The `main` CLI wrapper: `cleanup_task_results(not_dry_run=...)`. -/
def main (argv : List String) (st : Option (List String)) :
    Option (List String) × List String :=
  cleanup_task_results (main_not_dry_run argv) st

theorem cleanup_fold_drop (l : List String) :
    ∀ acc : List String, l.foldl (fun kept _ => kept) acc = acc := by
  induction l with
  | nil => intro acc; rfl
  | cons a t ih => intro acc; exact ih acc

theorem cleanup_fold_keep (l : List String) :
    ∀ acc : List String,
      l.foldl (fun kept d => kept ++ [d]) acc = acc ++ l := by
  induction l with
  | nil => intro acc; simp
  | cons a t ih => intro acc; simpa using ih (acc ++ [a])

/-- C7: the cleanup command run without `--not-dry-run` leaves every
entry of `results/tasks` in place; run with the flag it removes every
entry that existed before the call; and in both modes the
`results/tasks` directory itself survives. -/
theorem C7_cleanup_command (argv : List String) (entries : List String) :
    (argv.contains "--not-dry-run" = false →
      (main argv (some entries)).1 = some entries) ∧
    (argv.contains "--not-dry-run" = true →
      (main argv (some entries)).1 = some []) ∧
    (∀ b : Bool, ((cleanup_task_results b (some entries)).1).isSome = true) := by
  refine ⟨?_, ?_, ?_⟩
  · intro h
    show (cleanup_task_results (argv.contains "--not-dry-run") (some entries)).1 =
      some entries
    rw [h]
    simp [cleanup_task_results, cleanup_fold_keep]
  · intro h
    show (cleanup_task_results (argv.contains "--not-dry-run") (some entries)).1 =
      some []
    rw [h]
    simp [cleanup_task_results, cleanup_fold_drop]
  · intro b
    cases b <;> simp [cleanup_task_results]

/-- Witness for C7 at a two-entry results directory. -/
theorem C7_cleanup_command_witness :
    (["cleanup"].contains "--not-dry-run" = false ∧
      (main ["cleanup"] (some ["run1", "run2"])).1 = some ["run1", "run2"]) ∧
    (["cleanup", "--not-dry-run"].contains "--not-dry-run" = true ∧
      (main ["cleanup", "--not-dry-run"] (some ["run1", "run2"])).1 = some []) :=
  ⟨⟨by decide, (C7_cleanup_command ["cleanup"] ["run1", "run2"]).1 (by decide)⟩,
   ⟨by decide,
    (C7_cleanup_command ["cleanup", "--not-dry-run"] ["run1", "run2"]).2.1 (by decide)⟩⟩

/-- C10: calling the function `cleanup_task_results` with no argument
deletes for real — the `not_dry_run` parameter defaults to `True`, so
every entry under `results/tasks` is removed; dry-run-by-default holds
only through the CLI `main` wrapper, which passes `False` whenever
`--not-dry-run` is absent from the argument list. -/
theorem C10_cleanup_default_deletes (entries : List String) (argv : List String) :
    cleanup_default_not_dry_run = true ∧
    (cleanup_task_results cleanup_default_not_dry_run (some entries)).1 = some [] ∧
    (argv.contains "--not-dry-run" = false → main_not_dry_run argv = false) := by
  refine ⟨rfl, ?_, fun h => h⟩
  simp [cleanup_task_results, cleanup_default_not_dry_run, cleanup_fold_drop]

/-- Witness for C10 at a concrete directory state and argument list. -/
theorem C10_cleanup_default_deletes_witness :
    cleanup_default_not_dry_run = true ∧
    (cleanup_task_results cleanup_default_not_dry_run (some ["run1", "run2"])).1 =
      some [] ∧
    (["cleanup"].contains "--not-dry-run" = false → main_not_dry_run ["cleanup"] = false) :=
  C10_cleanup_default_deletes ["run1", "run2"] ["cleanup"]

/-! ## `get_ide_version`: the external version probe -/

/-- The characters Python's `str.strip()` removes. -/
def isPyWhitespace (c : Char) : Bool :=
  c = ' ' || c = '\t' || c = '\n' || c = '\x0d' || c = '\x0b' || c = '\x0c'

/-- Python `str.strip()`. -/
def pyStrip (s : String) : String :=
  String.mk (((s.toList.dropWhile isPyWhitespace).reverse.dropWhile
    isPyWhitespace).reverse)

/-- Split a character list at every `\n`, keeping empty pieces. -/
def splitNl : List Char → List (List Char)
  | [] => [[]]
  | '\n' :: rest => [] :: splitNl rest
  | c :: rest =>
      match splitNl rest with
      | p :: ps => (c :: p) :: ps
      | [] => [[c]]

/-- Python `str.splitlines()` for `\n`-separated text: the empty string
yields no lines and a trailing newline yields no trailing empty line.
(The probe's output is handled after `strip()`, so `\r` and the exotic
Unicode separators Python also recognises cannot occur here and are not
modelled.) -/
def pySplitlines (s : String) : List String :=
  if s.toList = [] then []
  else
    let parts := (splitNl s.toList).map String.mk
    if s.toList.getLast? = some '\n' then parts.dropLast else parts

/-- Python `str.startswith` (literal prefix test). -/
def pyStartsWith (pre s : String) : Bool :=
  pre.toList.isPrefixOf s.toList

/-- The filter of `get_ide_version`'s line loop:
`if line and not line.startswith("[version:")`. -/
def keptLine (l : String) : Bool :=
  (l != "") && !(pyStartsWith "[version:" l)

/-- The outcome of `subprocess.run(["mise", "run", f"version:{ide}"], ...)`
with `check=False`: a completed process (return code plus captured
stdout) or a raised exception (e.g. the runner binary is missing). -/
inductive ProcResult where
  | completed (returncode : Int) (stdout : String)
  | exn
  deriving DecidableEq, Repr

/-- `get_ide_version`, as a function of the subprocess outcome: on a zero
return code, strip the output, split it into lines, drop empty and
`[version:`-prefixed lines, and return the first remaining line stripped;
in every other case (non-zero return code, exception, empty output, or no
line surviving the filter) return `none` and a warning.  The function is
total: no exception escapes it. -/
def get_ide_version (ide : String) (r : ProcResult) : Option String × List String :=
  match r with
  | .exn => (none, ["Error detecting ide=" ++ ide ++ " version"])
  | .completed rc out =>
      if rc = 0 then
        if pyStrip out ≠ "" then
          match (pySplitlines (pyStrip out)).filter keptLine with
          | v :: _ => (some (pyStrip v), [])
          | [] => (none, ["Could not detect ide=" ++ ide ++ " version automatically."])
        else (none, ["Could not detect ide=" ++ ide ++ " version automatically."])
      else (none, ["Could not detect ide=" ++ ide ++ " version automatically."])

/-- C8 counterexample: a run with exit status 0 and non-empty output
("success" as the claim defines it) whose only line carries the
`[version:` marker returns an absent value — the claim's failure
enumeration (non-zero exit, exception, empty output) does not cover this
case. -/
theorem C8_success_counterexample :
    (get_ide_version "cursor" (.completed 0 "[version:cursor] running\n")).1 = none ∧
    ((0 : Int) = 0) ∧
    pyStrip "[version:cursor] running\n" ≠ "" := by
  refine ⟨by decide, rfl, by decide⟩

/-- C8 as amended: the probe never raises (it is a total function of the
subprocess outcome); whenever it returns an absent version it has emitted
a warning; on exit status 0 it returns the first non-empty,
non-marker-prefixed stdout line stripped of surrounding whitespace when
such a line exists; on exit status 0 with no line surviving the filter —
in particular with empty output — it warns and returns an absent value;
and on a non-zero exit status (and on an exception) the version is
absent. -/
theorem C8_version_probe_amended (ide : String) (r : ProcResult) :
    ((get_ide_version ide r).1 = none → (get_ide_version ide r).2 ≠ []) ∧
    (∀ rc out, r = ProcResult.completed rc out → rc = 0 →
      ∀ v rest, (pySplitlines (pyStrip out)).filter keptLine = v :: rest →
        get_ide_version ide r = (some (pyStrip v), [])) ∧
    (∀ rc out, r = ProcResult.completed rc out → rc = 0 →
      (pySplitlines (pyStrip out)).filter keptLine = [] →
        get_ide_version ide r =
          (none, ["Could not detect ide=" ++ ide ++ " version automatically."])) ∧
    (∀ rc out, r = ProcResult.completed rc out → rc = 0 → pyStrip out = "" →
      get_ide_version ide r =
        (none, ["Could not detect ide=" ++ ide ++ " version automatically."])) ∧
    (∀ rc out, r = ProcResult.completed rc out → rc ≠ 0 →
      get_ide_version ide r =
        (none, ["Could not detect ide=" ++ ide ++ " version automatically."])) ∧
    (get_ide_version ide ProcResult.exn =
      (none, ["Error detecting ide=" ++ ide ++ " version"])) := by
  refine ⟨?_, ?_, ?_, ?_, ?_, rfl⟩
  · intro hnone
    cases r with
    | exn => simp [get_ide_version]
    | completed rc out =>
        by_cases hrc : rc = 0
        · subst hrc
          by_cases hout : pyStrip out ≠ ""
          · rcases hfil : (pySplitlines (pyStrip out)).filter keptLine with _ | ⟨v, rest⟩
            · simp [get_ide_version, hout, hfil]
            · simp [get_ide_version, hout, hfil] at hnone
          · simp [get_ide_version, hout]
        · simp [get_ide_version, hrc]
  · intro rc out hr hrc v rest hfil
    subst hr hrc
    have hout : pyStrip out ≠ "" := by
      intro h
      rw [h] at hfil
      simp [pySplitlines] at hfil
    simp [get_ide_version, hout, hfil]
  · intro rc out hr hrc hfil
    subst hr hrc
    by_cases hout : pyStrip out = ""
    · simp [get_ide_version, hout]
    · simp [get_ide_version, hout, hfil]
  · intro rc out hr hrc hout
    subst hr hrc
    simp [get_ide_version, hout]
  · intro rc out hr hrc
    subst hr
    simp [get_ide_version, hrc]

/-- Witness for the amended C8: a marker line followed by a version line
yields the version line, stripped; output consisting of a single marker
line yields an absent value with the warning. -/
theorem C8_version_probe_amended_witness :
    ((ProcResult.completed 0 "[version:cursor] run\n cursor 1.2.3 \n" : ProcResult) =
      ProcResult.completed 0 "[version:cursor] run\n cursor 1.2.3 \n") ∧
    ((0 : Int) = 0) ∧
    ((pySplitlines (pyStrip "[version:cursor] run\n cursor 1.2.3 \n")).filter keptLine =
      " cursor 1.2.3" :: []) ∧
    get_ide_version "cursor" (.completed 0 "[version:cursor] run\n cursor 1.2.3 \n") =
      (some "cursor 1.2.3", []) ∧
    ((pySplitlines (pyStrip "[version:cursor] running\n")).filter keptLine = []) ∧
    get_ide_version "cursor" (.completed 0 "[version:cursor] running\n") =
      (none, ["Could not detect ide=cursor version automatically."]) :=
  ⟨rfl, rfl, by decide,
   by
    have h := (C8_version_probe_amended "cursor"
      (.completed 0 "[version:cursor] run\n cursor 1.2.3 \n")).2.1 0
      "[version:cursor] run\n cursor 1.2.3 \n" rfl rfl " cursor 1.2.3" [] (by decide)
    rw [h]
    decide,
   by decide,
   by
    have h := (C8_version_probe_amended "cursor"
      (.completed 0 "[version:cursor] running\n")).2.2.1 0
      "[version:cursor] running\n" rfl rfl (by decide)
    rw [h]
    decide⟩

/-! ## `eval_entrypoint` control flow -/

/-- The statements of `eval_entrypoint`, in source order, with the
conditional ones parameterized by the parsed flags. -/
inductive EvalAction where
  | debuggerBreakpoint
  | parseArgs
  | printAnalyzingDir
  | printVerboseNote
  | runAnalyze
  | printMarkdownReport
  | saveOutputFile
  deriving DecidableEq, Repr

/-- The action trace of `eval_entrypoint`: the source executes
`breakpoint()` as its first statement, before even constructing the
argument parser. -/
def eval_entrypoint_trace (verbose save_output : Bool) : List EvalAction :=
  [.debuggerBreakpoint, .parseArgs, .printAnalyzingDir] ++
    (if verbose then [.printVerboseNote] else []) ++
    [.runAnalyze, .printMarkdownReport] ++
    (if save_output then [.saveOutputFile] else [])

/-- C9: contrary to the claim, every execution of the eval entry point
suspends into the interactive debugger: `breakpoint()` is the first
action of the trace, ahead of argument parsing, for every combination of
flags. -/
theorem C9_breakpoint_precedes_parsing (verbose save_output : Bool) :
    (eval_entrypoint_trace verbose save_output).head? =
      some EvalAction.debuggerBreakpoint ∧
    EvalAction.debuggerBreakpoint ∈ eval_entrypoint_trace verbose save_output := by
  cases verbose <;> cases save_output <;> exact ⟨rfl, by decide⟩

end AiIdeCompare
